import Mathlib

/-!
Shallow embedding of the EcoSort core (db_manager.py): the points/rewards
ledger and the pickup-job lifecycle. SQLite rows are modelled as Lean
structures; tables keyed by primary key are total functions to `Option`;
tables the code scans in row order (users, rewards_catalog) are association
lists; REAL weights are exact rationals and Python `int()` is truncation
toward zero.
-/

/-- Truncation toward zero on rationals, the semantics of Python `int(x)`
applied to an exact rational value. -/
def pyTrunc (q : ℚ) : Int := if 0 ≤ q then ⌊q⌋ else ⌈q⌉

/-- Row of the `users` table (columns the core logic reads). -/
structure UserRow where
  id : Nat
  username : String
deriving DecidableEq

/-- Row of the `resident_profiles` table. -/
structure ResidentProfile where
  full_name : String
  address : String
  zone : String
  points : Int
deriving DecidableEq

/-- Row of the `pickup_requests` table. Status is the stored string
(`Pending`, `Completed`, `Failed`). -/
structure PickupRequest where
  resident_id : Nat
  waste_type : String
  status : String
  scheduled_date : String
  weight_kg : ℚ
  driver_id : Option Nat
  notes : String
deriving DecidableEq

/-- Row of the `rewards_catalog` table (key column separate). -/
structure RewardItem where
  item_name : String
  cost_points : Int
  stock_level : Int
deriving DecidableEq

/-- Row of the `redemption_logs` table. -/
structure RedemptionLog where
  resident_id : Nat
  item_id : Nat
  points_spent : Int
deriving DecidableEq

/-- The persisted database state. `users` and `catalog` are in row order
(`fetchone` takes the first match); `profiles` and `jobs` are keyed by
their integer primary key; `logs` is append-only. -/
structure DBState where
  users : List UserRow
  profiles : Nat → Option ResidentProfile
  jobs : Nat → Option PickupRequest
  next_job_id : Nat
  catalog : List (Nat × RewardItem)
  logs : List RedemptionLog

/-- `get_user_points(username)`: join users to resident_profiles on the
username; return `current_points` of the row if any, else 0. -/
def get_user_points (s : DBState) (username : String) : Int :=
  match s.users.find? (fun u => u.username == username) with
  | none => 0
  | some u =>
    match s.profiles u.id with
    | none => 0
    | some p => p.points

/-- `add_booking(username, date, waste_type, notes)`: look up the user id;
if found, insert a pickup request with status `Pending` (weight and driver
take the schema defaults `0.0` and NULL); if not found, do nothing. -/
def add_booking (s : DBState) (username date waste_type notes : String) : DBState :=
  match s.users.find? (fun u => u.username == username) with
  | none => s
  | some u =>
    { s with
      jobs := fun i =>
        if i = s.next_job_id then
          some { resident_id := u.id, waste_type := waste_type, status := "Pending",
                 scheduled_date := date, weight_kg := 0, driver_id := none, notes := notes }
        else s.jobs i,
      next_job_id := s.next_job_id + 1 }

/-- `complete_job(job_id, weight)`: UPDATE the row to status `Completed`
with the given weight, then SELECT its `resident_id` and add
`int(weight * 10)` points to that resident's profile, committing both
updates together. When no row has `id = job_id` the `fetchone()` subscript
raises before the commit, so nothing is persisted (`none`). -/
def complete_job (s : DBState) (job_id : Nat) (weight : ℚ) : Option DBState :=
  match s.jobs job_id with
  | none => none
  | some j =>
    some { s with
      jobs := fun i =>
        if i = job_id then
          (s.jobs i).map (fun j0 => { j0 with status := "Completed", weight_kg := weight })
        else s.jobs i,
      profiles := fun uid =>
        if uid = j.resident_id then
          (s.profiles uid).map (fun p => { p with points := p.points + pyTrunc (weight * 10) })
        else s.profiles uid }

/-- `report_issue(job_id, reason)`: UPDATE the row (if any) to status
`Failed` with notes `"Issue: " + reason`, and commit. No existence or
status check: an unknown id updates zero rows and still succeeds. -/
def report_issue (s : DBState) (job_id : Nat) (reason : String) : DBState :=
  { s with
    jobs := fun i =>
      if i = job_id then
        (s.jobs i).map (fun j => { j with status := "Failed", notes := "Issue: " ++ reason })
      else s.jobs i }

/-- `redeem_item(username, item_name, cost)`: check user+profile join,
then the item by name (a missing item and a stock level below 1 share the
same `"Out of stock"` return), then the balance against the `cost`
argument; on success debit `cost`, decrement the stock, append a log row
and return a code built from the random draw `rand`. -/
def redeem_item (s : DBState) (username item_name : String) (cost : Int) (rand : Nat) :
    (Bool × String) × DBState :=
  match s.users.find? (fun u => u.username == username) with
  | none => ((false, "User not found"), s)
  | some u =>
    match s.profiles u.id with
    | none => ((false, "User not found"), s)
    | some p =>
      match s.catalog.find? (fun e => e.2.item_name == item_name) with
      | none => ((false, "Out of stock"), s)
      | some e =>
        if e.2.stock_level < 1 then ((false, "Out of stock"), s)
        else if p.points < cost then ((false, "Insufficient points"), s)
        else
          ((true, "CODE-" ++ toString rand),
           { s with
             profiles := fun uid =>
               if uid = u.id then
                 (s.profiles uid).map (fun q => { q with points := q.points - cost })
               else s.profiles uid,
             catalog := s.catalog.map (fun e0 =>
               if e0.1 = e.1 then (e0.1, { e0.2 with stock_level := e0.2.stock_level - 1 })
               else e0),
             logs := s.logs ++ [{ resident_id := u.id, item_id := e.1, points_spent := cost }] })

/-! ### Invariants and auxiliary observations -/

/-- The §3 ledger invariant: every resident profile carries a non-negative
point balance. -/
def balancesNonneg (s : DBState) : Prop :=
  ∀ uid p, s.profiles uid = some p → 0 ≤ p.points

/-- The §3 pickup invariant: a stored job has positive weight exactly when
its status is `Completed`. -/
def weightStatusInv (s : DBState) : Prop :=
  ∀ i j, s.jobs i = some j → (0 < j.weight_kg ↔ j.status = "Completed")

/-- Stock level of the catalog row with primary key `k` (SELECT by id). -/
def catalog_stock (s : DBState) (k : Nat) : Option Int :=
  (s.catalog.find? (fun e => e.1 == k)).map (fun e => e.2.stock_level)

theorem pyTrunc_eq_floor {q : ℚ} (h : 0 ≤ q) : pyTrunc q = ⌊q⌋ := if_pos h

theorem pyTrunc_nonneg {q : ℚ} (h : 0 ≤ q) : 0 ≤ pyTrunc q := by
  rw [pyTrunc_eq_floor h]
  exact Int.floor_nonneg.2 h

/-! ### A concrete reference state, reduced from the seed data -/

/-- A small state in the shape produced by `seed_data` plus one pending
booking: residents john (id 1) and sarah (id 2) with 50 points each, a
pending job 1 for john, and two catalog rows. -/
def s0 : DBState where
  users := [⟨1, "john"⟩, ⟨2, "sarah"⟩]
  profiles := fun uid =>
    if uid = 1 then some ⟨"John Doe", "12 Jalan Teknokrat 3", "Zone A", 50⟩
    else if uid = 2 then some ⟨"Sarah Tan", "45 Persiaran Multimedia", "Zone B", 50⟩
    else none
  jobs := fun i =>
    if i = 1 then some ⟨1, "Recyclable", "Pending", "2025-01-01", 0, none, ""⟩ else none
  next_job_id := 2
  catalog := [(1, ⟨"GrabFood RM10 Voucher", 500, 50⟩), (2, ⟨"Straw Set", 200, 1⟩)]
  logs := []

/-- Like `s0` but job 1 already completed at 2.5 kg. -/
def sC : DBState where
  users := s0.users
  profiles := s0.profiles
  jobs := fun i =>
    if i = 1 then some ⟨1, "Recyclable", "Completed", "2025-01-01", 5/2, none, ""⟩ else none
  next_job_id := 2
  catalog := s0.catalog
  logs := []

/-! ### C1 -/

/-- C1: for a stored Pending job and any positive weight, `complete_job`
succeeds and the resulting state simultaneously carries the job with
status `Completed` and the given weight, and the job's resident's profile
with its balance increased by exactly `⌊weight * 10⌋`. -/
theorem complete_job_credits_and_completes (s : DBState) (job_id : Nat) (w : ℚ)
    (j : PickupRequest) (p : ResidentProfile)
    (hj : s.jobs job_id = some j) (hpending : j.status = "Pending")
    (hw : 0 < w) (hp : s.profiles j.resident_id = some p) :
    ∃ s', complete_job s job_id w = some s' ∧
      s'.jobs job_id = some { j with status := "Completed", weight_kg := w } ∧
      s'.profiles j.resident_id = some { p with points := p.points + ⌊w * 10⌋ } := by
  have hfloor : pyTrunc (w * 10) = ⌊w * 10⌋ := pyTrunc_eq_floor (by positivity)
  unfold complete_job
  rw [hj]
  exact ⟨_, rfl, by simp [hj], by simp [hp, hfloor]⟩

/-- C1 witness: completing pending job 1 of `s0` at 2.5 kg yields status
`Completed`, stored weight 2.5, and 50 + 25 points for john. -/
theorem complete_job_credits_and_completes_witness :
    ∃ s', complete_job s0 1 (5/2) = some s' ∧
      s'.jobs 1 = some { resident_id := 1, waste_type := "Recyclable", status := "Completed",
                         scheduled_date := "2025-01-01", weight_kg := 5/2, driver_id := none,
                         notes := "" } ∧
      s'.profiles 1 = some { full_name := "John Doe", address := "12 Jalan Teknokrat 3",
                             zone := "Zone A", points := 50 + ⌊(5/2 : ℚ) * 10⌋ } :=
  complete_job_credits_and_completes s0 1 (5/2)
    ⟨1, "Recyclable", "Pending", "2025-01-01", 0, none, ""⟩
    ⟨"John Doe", "12 Jalan Teknokrat 3", "Zone A", 50⟩
    rfl rfl (by norm_num) rfl

/-! ### C2 -/

/-- C2: the code has no terminal-state guard. Completing the already
Completed job 1 of `s0` a second time succeeds again and credits john a
second time (balance 50 → 75 → 100), instead of failing with an
invalid-state error and leaving state unchanged. -/
theorem complete_job_double_credit :
    get_user_points s0 "john" = 50 ∧
    (complete_job s0 1 (5/2)).map (fun s1 => get_user_points s1 "john") = some 75 ∧
    ((complete_job s0 1 (5/2)).bind fun s1 => complete_job s1 1 (5/2)).map
        (fun s2 => get_user_points s2 "john") = some 100 ∧
    ((complete_job s0 1 (5/2)).bind fun s1 => complete_job s1 1 (5/2)).map
        (fun s2 => s2.jobs 1) =
      some (some { resident_id := 1, waste_type := "Recyclable", status := "Completed",
                   scheduled_date := "2025-01-01", weight_kg := 5/2, driver_id := none,
                   notes := "" }) := by
  refine ⟨rfl, ?_, ?_, ?_⟩ <;>
    norm_num [complete_job, get_user_points, s0, pyTrunc]

/-! ### C3 -/

/-- One core operation, as invoked by the UI collaborators. -/
inductive LedgerOp where
  | create (username date waste_type notes : String)
  | complete (job_id : Nat) (weight : ℚ)
  | reportIssue (job_id : Nat) (reason : String)
  | redeem (username item_name : String) (cost : Int) (rand : Nat)

/-- Apply one operation to the persisted state. A `complete_job` call that
raises (unknown id) persists nothing, so the state is kept. -/
def applyOp (s : DBState) : LedgerOp → DBState
  | .create u d w n => add_booking s u d w n
  | .complete j w => (complete_job s j w).getD s
  | .reportIssue j r => report_issue s j r
  | .redeem u i c r => (redeem_item s u i c r).2

def runOps (s : DBState) : List LedgerOp → DBState
  | [] => s
  | op :: ops => runOps (applyOp s op) ops

/-- A `complete` call is a ledger credit only for a positive weight — the
spec precondition, and the collector UI enforces a minimum of 0.1 kg. -/
def opOk : LedgerOp → Prop
  | .complete _ w => 0 < w
  | _ => True


theorem balancesNonneg_add_booking (s : DBState) (u d w n : String)
    (hs : balancesNonneg s) : balancesNonneg (add_booking s u d w n) := by
  rcases h1 : s.users.find? (fun x => x.username == u) with _ | x
  · simpa [add_booking, h1] using hs
  · intro uid p hp
    simp only [add_booking, h1] at hp
    exact hs uid p hp

theorem balancesNonneg_report_issue (s : DBState) (j : Nat) (r : String)
    (hs : balancesNonneg s) : balancesNonneg (report_issue s j r) := by
  intro uid p hp
  exact hs uid p hp

theorem balancesNonneg_complete_job (s : DBState) (j : Nat) (w : ℚ) (hw : 0 ≤ w)
    (hs : balancesNonneg s) : balancesNonneg ((complete_job s j w).getD s) := by
  rcases hjob : s.jobs j with _ | jj
  · simpa [complete_job, hjob] using hs
  · intro uid p hp
    simp only [complete_job, hjob, Option.getD_some] at hp
    by_cases huid : uid = jj.resident_id
    · subst huid
      rw [if_pos rfl] at hp
      rcases Option.map_eq_some'.1 hp with ⟨q, hq, rfl⟩
      have hq0 : 0 ≤ q.points := hs _ _ hq
      have hcr : 0 ≤ pyTrunc (w * 10) :=
        pyTrunc_nonneg (mul_nonneg hw (by norm_num))
      simpa using add_nonneg hq0 hcr
    · rw [if_neg huid] at hp
      exact hs _ _ hp

theorem balancesNonneg_redeem_item (s : DBState) (u i : String) (c : Int) (r : Nat)
    (hs : balancesNonneg s) : balancesNonneg ((redeem_item s u i c r).2) := by
  rcases h1 : s.users.find? (fun x => x.username == u) with _ | x
  · simpa [redeem_item, h1] using hs
  rcases h2 : s.profiles x.id with _ | p
  · simpa [redeem_item, h1, h2] using hs
  rcases h3 : s.catalog.find? (fun e => e.2.item_name == i) with _ | e
  · simpa [redeem_item, h1, h2, h3] using hs
  by_cases h4 : e.2.stock_level < 1
  · simpa [redeem_item, h1, h2, h3, h4] using hs
  by_cases h5 : p.points < c
  · simpa [redeem_item, h1, h2, h3, h4, h5] using hs
  intro uid q hq
  simp only [redeem_item, h1, h2, h3, if_neg h4, if_neg h5] at hq
  by_cases huid : uid = x.id
  · subst huid
    rw [if_pos rfl, h2] at hq
    simp only [Option.map_some'] at hq
    obtain rfl : _ = q := Option.some.inj hq
    have hp0 : 0 ≤ p.points := hs _ _ h2
    have hc : c ≤ p.points := le_of_not_lt h5
    show 0 ≤ p.points - c
    omega
  · rw [if_neg huid] at hq
    exact hs _ _ hq

theorem balancesNonneg_applyOp (s : DBState) (op : LedgerOp) (hop : opOk op)
    (hs : balancesNonneg s) : balancesNonneg (applyOp s op) := by
  cases op with
  | create u d w n => exact balancesNonneg_add_booking s u d w n hs
  | complete j w => exact balancesNonneg_complete_job s j w (le_of_lt hop) hs
  | reportIssue j r => exact balancesNonneg_report_issue s j r hs
  | redeem u i c r => exact balancesNonneg_redeem_item s u i c r hs

/-- C3: over every sequence of core operations in which each `complete` is
called with a positive weight (the spec's credit precondition, which the
collector UI enforces with a 0.1 kg minimum), every resident balance stays
non-negative; instantiating the sequence at each prefix gives the property
after every single operation. -/
theorem ledger_points_nonneg (ops : List LedgerOp) (s : DBState)
    (hops : ∀ op ∈ ops, opOk op) (hs : balancesNonneg s) :
    balancesNonneg (runOps s ops) := by
  induction ops generalizing s with
  | nil => exact hs
  | cons op ops ih =>
    exact ih (applyOp s op) (fun o ho => hops o (List.mem_cons_of_mem _ ho))
      (balancesNonneg_applyOp s op (hops op (List.mem_cons_self _ _)) hs)

theorem balancesNonneg_s0 : balancesNonneg s0 := by
  intro uid p hp
  unfold s0 at hp
  dsimp only at hp
  split at hp
  · cases hp; decide
  · split at hp
    · cases hp; decide
    · cases hp

/-- C3 witness: a concrete booking / completion / redemption / issue
sequence on `s0` keeps all balances non-negative. -/
theorem ledger_points_nonneg_witness :
    balancesNonneg (runOps s0
      [.create "sarah" "2025-01-03" "E-Waste" "", .complete 1 (5/2),
       .redeem "john" "Straw Set" 200 7, .reportIssue 1 "Access Blocked"]) :=
  ledger_points_nonneg _ s0
    (by
      intro op hop
      simp only [List.mem_cons, List.not_mem_nil, or_false] at hop
      rcases hop with rfl | rfl | rfl | rfl
      · trivial
      · show (0 : ℚ) < 5/2
        norm_num
      · trivial
      · trivial)
    balancesNonneg_s0

/-! ### C4 -/

/-- C4: redemption is all-or-nothing. Whenever `redeem_item` reports
failure — unknown user, missing profile, unknown item, zero stock, or
insufficient points — the returned state is exactly the input state:
balance, stock and redemption log are all untouched. -/
theorem redeem_item_failure_leaves_state (s : DBState) (uname iname : String)
    (c : Int) (r : Nat)
    (hfail : (redeem_item s uname iname c r).1.1 = false) :
    (redeem_item s uname iname c r).2 = s := by
  rcases h1 : s.users.find? (fun x => x.username == uname) with _ | x
  · simp [redeem_item, h1]
  rcases h2 : s.profiles x.id with _ | p
  · simp [redeem_item, h1, h2]
  rcases h3 : s.catalog.find? (fun e => e.2.item_name == iname) with _ | e
  · simp [redeem_item, h1, h2, h3]
  by_cases h4 : e.2.stock_level < 1
  · simp [redeem_item, h1, h2, h3, h4]
  by_cases h5 : p.points < c
  · simp [redeem_item, h1, h2, h3, h4, h5]
  · exfalso
    simp [redeem_item, h1, h2, h3, h4, h5] at hfail

/-- C4 witness: redeeming an item that is not in the `s0` catalog fails
and returns `s0` itself. -/
theorem redeem_item_failure_leaves_state_witness :
    (redeem_item s0 "john" "TGV Cinema Ticket" 0 0).1.1 = false ∧
    (redeem_item s0 "john" "TGV Cinema Ticket" 0 0).2 = s0 :=
  ⟨rfl, redeem_item_failure_leaves_state s0 "john" "TGV Cinema Ticket" 0 0 rfl⟩

/-! ### C5 -/

/-- C5 counterexample: the catalog prices "GrabFood RM10 Voucher" at 500
`cost_points`, yet calling `redeem_item` with cost argument 1 succeeds and
debits john exactly 1 point (50 → 49), not the catalog's 500 — the claim
that a successful redemption decreases points by the catalog item's
`cost_points` is false: the debit is the caller-supplied `cost`. -/
theorem redeem_item_cost_argument_cx :
    (s0.catalog.find? (fun e => e.2.item_name == "GrabFood RM10 Voucher")).map
        (fun e => e.2.cost_points) = some 500 ∧
    get_user_points s0 "john" = 50 ∧
    (redeem_item s0 "john" "GrabFood RM10 Voucher" 1 7).1 = (true, "CODE-7") ∧
    get_user_points (redeem_item s0 "john" "GrabFood RM10 Voucher" 1 7).2 "john" = 49 :=
  ⟨rfl, rfl, rfl, rfl⟩

theorem find?_key_of_nodup (l : List (Nat × RewardItem))
    (hnd : (l.map Prod.fst).Nodup) (k : Nat) (b : RewardItem)
    (hmem : (k, b) ∈ l) : l.find? (fun e => e.1 == k) = some (k, b) := by
  induction l with
  | nil => cases hmem
  | cons hd tl ih =>
    rw [List.map_cons, List.nodup_cons] at hnd
    rcases List.mem_cons.1 hmem with rfl | hmem'
    · exact List.find?_cons_of_pos _ (by simp)
    · have hk : hd.1 ≠ k := by
        intro hkk
        exact hnd.1 (hkk ▸ List.mem_map.2 ⟨(k, b), hmem', rfl⟩)
      rw [List.find?_cons_of_neg _ (by simpa using hk)]
      exact ih hnd.2 hmem'

/-- C5 amended: on a successful redemption (existing user and profile,
item found by name, stock at least 1, balance at least the `cost`
argument; catalog keys unique as primary keys are), the resident's points
decrease by exactly the `cost` argument — which the resident UI passes as
the item's `cost_points` — the item's stock decreases by exactly 1 and no
other row's stock changes, exactly one redemption-log row with
`points_spent = cost` is appended, and a generated code is returned. -/
theorem redeem_item_success_effects (s : DBState) (uname iname : String)
    (c : Int) (r : Nat) (u : UserRow) (p : ResidentProfile) (e : Nat × RewardItem)
    (hu : s.users.find? (fun x => x.username == uname) = some u)
    (hp : s.profiles u.id = some p)
    (hi : s.catalog.find? (fun x => x.2.item_name == iname) = some e)
    (hstock : 1 ≤ e.2.stock_level) (hpts : c ≤ p.points)
    (hnd : (s.catalog.map Prod.fst).Nodup) :
    (redeem_item s uname iname c r).1 = (true, "CODE-" ++ toString r) ∧
    (redeem_item s uname iname c r).2.profiles u.id =
      some { p with points := p.points - c } ∧
    catalog_stock s e.1 = some e.2.stock_level ∧
    catalog_stock (redeem_item s uname iname c r).2 e.1 =
      some (e.2.stock_level - 1) ∧
    (∀ k, k ≠ e.1 → catalog_stock (redeem_item s uname iname c r).2 k = catalog_stock s k) ∧
    (redeem_item s uname iname c r).2.logs =
      s.logs ++ [{ resident_id := u.id, item_id := e.1, points_spent := c }] := by
  have h4 : ¬ e.2.stock_level < 1 := not_lt.2 hstock
  have h5 : ¬ p.points < c := not_lt.2 hpts
  have hfind : s.catalog.find? (fun x => x.1 == e.1) = some (e.1, e.2) :=
    find?_key_of_nodup s.catalog hnd e.1 e.2
      (by simpa using List.mem_of_find?_eq_some hi)
  refine ⟨?_, ?_, ?_, ?_, ?_, ?_⟩
  · simp [redeem_item, hu, hp, hi, h4, h5]
  · simp [redeem_item, hu, hp, hi, h4, h5]
  · simp [catalog_stock, hfind]
  · simp only [redeem_item, hu, hp, hi, if_neg h4, if_neg h5, catalog_stock,
      List.find?_map]
    have hcomp : (fun x : Nat × RewardItem => x.1 == e.1) ∘
        (fun e0 : Nat × RewardItem =>
          if e0.1 = e.1 then (e0.1, { e0.2 with stock_level := e0.2.stock_level - 1 })
          else e0) = fun x : Nat × RewardItem => x.1 == e.1 := by
      funext x
      by_cases hx : x.1 = e.1 <;> simp [hx]
    rw [hcomp, hfind]
    simp
  · intro k hk
    simp only [redeem_item, hu, hp, hi, if_neg h4, if_neg h5, catalog_stock,
      List.find?_map]
    have hcomp : (fun x : Nat × RewardItem => x.1 == k) ∘
        (fun e0 : Nat × RewardItem =>
          if e0.1 = e.1 then (e0.1, { e0.2 with stock_level := e0.2.stock_level - 1 })
          else e0) = fun x : Nat × RewardItem => x.1 == k := by
      funext x
      by_cases hx : x.1 = e.1 <;> simp [hx]
    rw [hcomp]
    rcases hfk : s.catalog.find? (fun x => x.1 == k) with _ | a
    · rw [hfk]
      simp
    · have ha : a.1 = k := by simpa using List.find?_some hfk
      have hne : ¬ a.1 = e.1 := by rw [ha]; exact hk
      rw [hfk]
      simp [Function.comp, hne]
  · simp [redeem_item, hu, hp, hi, h4, h5]

/-- C5 witness: john redeems the "Straw Set" row (key 2, stock 1) at cost
argument 30: points 50 → 20, stock 1 → 0, one log row appended. -/
theorem redeem_item_success_effects_witness :
    (redeem_item s0 "john" "Straw Set" 30 7).1 = (true, "CODE-" ++ toString 7) ∧
    (redeem_item s0 "john" "Straw Set" 30 7).2.profiles 1 =
      some { full_name := "John Doe", address := "12 Jalan Teknokrat 3", zone := "Zone A",
             points := 50 - 30 } ∧
    catalog_stock s0 2 = some 1 ∧
    catalog_stock (redeem_item s0 "john" "Straw Set" 30 7).2 2 = some (1 - 1) ∧
    (∀ k, k ≠ 2 → catalog_stock (redeem_item s0 "john" "Straw Set" 30 7).2 k = catalog_stock s0 k) ∧
    (redeem_item s0 "john" "Straw Set" 30 7).2.logs =
      s0.logs ++ [{ resident_id := 1, item_id := 2, points_spent := 30 }] :=
  redeem_item_success_effects s0 "john" "Straw Set" 30 7
    ⟨1, "john"⟩ ⟨"John Doe", "12 Jalan Teknokrat 3", "Zone A", 50⟩
    (2, ⟨"Straw Set", 200, 1⟩) rfl rfl rfl (by decide) (by decide) (by decide)

/-! ### C6 -/

/-- C6 counterexample: "Netflix 1-Month Sub" is not in the `s0` catalog,
yet the failure is reported as "Out of stock" — not as the not-found error
("User not found" is the function's only not-found return) the claim
predicts for an unknown item. -/
theorem redeem_item_unknown_item_cx :
    s0.catalog.find? (fun e => e.2.item_name == "Netflix 1-Month Sub") = none ∧
    (redeem_item s0 "john" "Netflix 1-Month Sub" 1200 0).1 = (false, "Out of stock") ∧
    (redeem_item s0 "john" "Netflix 1-Month Sub" 1200 0).1.2 ≠ "User not found" :=
  ⟨rfl, rfl, by decide⟩

/-- C6 amended: the preconditions are checked in the order (a) user with
profile exists ("User not found"), (b) item exists and has stock at least
1, the two merged into a single "Out of stock" failure — an unknown item
is reported as out of stock, not as not-found — then (c) balance at least
the cost argument ("Insufficient points"); the first failing check
determines the returned error. -/
theorem redeem_item_error_order (s : DBState) (uname iname : String) (c : Int) (r : Nat) :
    (s.users.find? (fun x => x.username == uname) = none →
      (redeem_item s uname iname c r).1 = (false, "User not found")) ∧
    (∀ u, s.users.find? (fun x => x.username == uname) = some u →
      s.profiles u.id = none →
      (redeem_item s uname iname c r).1 = (false, "User not found")) ∧
    (∀ u p, s.users.find? (fun x => x.username == uname) = some u →
      s.profiles u.id = some p →
      s.catalog.find? (fun e => e.2.item_name == iname) = none →
      (redeem_item s uname iname c r).1 = (false, "Out of stock")) ∧
    (∀ u p e, s.users.find? (fun x => x.username == uname) = some u →
      s.profiles u.id = some p →
      s.catalog.find? (fun x => x.2.item_name == iname) = some e →
      e.2.stock_level < 1 →
      (redeem_item s uname iname c r).1 = (false, "Out of stock")) ∧
    (∀ u p e, s.users.find? (fun x => x.username == uname) = some u →
      s.profiles u.id = some p →
      s.catalog.find? (fun x => x.2.item_name == iname) = some e →
      1 ≤ e.2.stock_level → p.points < c →
      (redeem_item s uname iname c r).1 = (false, "Insufficient points")) := by
  refine ⟨?_, ?_, ?_, ?_, ?_⟩
  · intro h1
    simp [redeem_item, h1]
  · intro u h1 h2
    simp [redeem_item, h1, h2]
  · intro u p h1 h2 h3
    simp [redeem_item, h1, h2, h3]
  · intro u p e h1 h2 h3 h4
    simp [redeem_item, h1, h2, h3, h4]
  · intro u p e h1 h2 h3 h4 h5
    simp [redeem_item, h1, h2, h3, not_lt.2 h4, h5]

/-- C6 witness: john (50 points) redeeming the 500-point voucher at cost
500 hits the balance check last and gets "Insufficient points". -/
theorem redeem_item_error_order_witness :
    (redeem_item s0 "john" "GrabFood RM10 Voucher" 500 0).1 = (false, "Insufficient points") :=
  (redeem_item_error_order s0 "john" "GrabFood RM10 Voucher" 500 0).2.2.2.2
    ⟨1, "john"⟩ ⟨"John Doe", "12 Jalan Teknokrat 3", "Zone A", 50⟩
    (1, ⟨"GrabFood RM10 Voucher", 500, 50⟩) rfl rfl rfl (by decide) (by decide)

theorem weightStatusInv_s0 : weightStatusInv s0 := by
  intro i j hj
  unfold s0 at hj
  dsimp only at hj
  split at hj
  · cases hj
    simp
  · cases hj

/-- C7 counterexample: in state `sC` the invariant `weight_kg > 0 iff
status = Completed` holds, but calling `report_issue` on the Completed job
1 sets status `Failed` while keeping weight 2.5, breaking the
biconditional — so not every operation preserves it. -/
theorem report_issue_weight_inv_cx :
    weightStatusInv sC ∧ ¬ weightStatusInv (report_issue sC 1 "Access Blocked") := by
  constructor
  · intro i j hj
    unfold sC at hj
    dsimp only at hj
    split at hj
    · cases hj
      constructor
      · intro _
        rfl
      · intro _
        norm_num
    · cases hj
  · intro h
    have hj : (report_issue sC 1 "Access Blocked").jobs 1 =
        some ⟨1, "Recyclable", "Failed", "2025-01-01", 5/2, none, "Issue: Access Blocked"⟩ := rfl
    have hbad := (h 1 _ hj).1 (by norm_num)
    simp at hbad

/-- C7 amended: creation preserves the biconditional and yields a Pending
job with weight 0 (`add_booking` case); `complete_job` preserves it when
the weight is positive; `report_issue` preserves it only when the targeted
job is not in status `Completed` (the collector UI only offers Pending
jobs) — on a Completed job it breaks it, as the counterexample shows. -/
theorem weight_status_inv_preserved (s : DBState) (hinv : weightStatusInv s) :
    (∀ uname d wt n, weightStatusInv (add_booking s uname d wt n)) ∧
    (∀ job_id w s', 0 < w → complete_job s job_id w = some s' → weightStatusInv s') ∧
    (∀ job_id reason, (∀ j, s.jobs job_id = some j → j.status ≠ "Completed") →
      weightStatusInv (report_issue s job_id reason)) ∧
    (∀ uname d wt n u, s.users.find? (fun x => x.username == uname) = some u →
      (add_booking s uname d wt n).jobs s.next_job_id =
        some { resident_id := u.id, waste_type := wt, status := "Pending",
               scheduled_date := d, weight_kg := 0, driver_id := none, notes := n }) := by
  refine ⟨?_, ?_, ?_, ?_⟩
  · intro uname d wt n
    rcases hfind : s.users.find? (fun x => x.username == uname) with _ | u
    · simpa [add_booking, hfind] using hinv
    · intro i j hj
      simp only [add_booking, hfind] at hj
      by_cases hi : i = s.next_job_id
      · rw [if_pos hi] at hj
        cases hj
        simp
      · rw [if_neg hi] at hj
        exact hinv _ _ hj
  · intro job_id w s' hw hcj
    rcases hjob : s.jobs job_id with _ | jj
    · simp [complete_job, hjob] at hcj
    · simp only [complete_job, hjob, Option.some.injEq] at hcj
      subst hcj
      intro i j hj
      dsimp only at hj
      by_cases hi : i = job_id
      · subst hi
        rw [if_pos rfl, hjob] at hj
        cases hj
        simpa using hw
      · rw [if_neg hi] at hj
        exact hinv _ _ hj
  · intro job_id reason hnc i j hj
    simp only [report_issue] at hj
    by_cases hi : i = job_id
    · subst hi
      rw [if_pos rfl] at hj
      rcases hjob : s.jobs i with _ | jj
      · rw [hjob] at hj
        cases hj
      · rw [hjob] at hj
        cases hj
        have hw : ¬ 0 < jj.weight_kg := fun hpos =>
          hnc jj hjob ((hinv i jj hjob).1 hpos)
        exact iff_of_false hw (by simp)
    · rw [if_neg hi] at hj
      exact hinv _ _ hj
  · intro uname d wt n u hfind
    simp [add_booking, hfind]

/-- C7 witness: reporting an issue on the Pending job of `s0` keeps the
invariant. -/
theorem weight_status_inv_preserved_witness :
    weightStatusInv (report_issue s0 1 "Access Blocked") :=
  (weight_status_inv_preserved s0 weightStatusInv_s0).2.2.1 1 "Access Blocked"
    (fun j hj => by
      have hjP : (⟨1, "Recyclable", "Pending", "2025-01-01", 0, none, ""⟩ : PickupRequest) = j :=
        Option.some.inj hj
      subst hjP
      decide)

/-! ### C8 -/

/-- C8 counterexample: reporting "Access Blocked" on the Pending job of
`s0` stores "Issue: Access Blocked" in notes — the code prefixes the
reason with "Issue: ", so the notes field is not exactly the given reason
string. -/
theorem report_issue_notes_cx :
    (report_issue s0 1 "Access Blocked").jobs 1 =
      some ⟨1, "Recyclable", "Failed", "2025-01-01", 0, none, "Issue: Access Blocked"⟩ ∧
    "Issue: Access Blocked" ≠ "Access Blocked" :=
  ⟨rfl, by decide⟩

/-- C8 amended: on a Pending job, `report_issue` sets status `Failed`,
stores the reason prefixed with "Issue: " in the notes (not the bare
reason string), and leaves all profiles — hence every resident balance —
unchanged. -/
theorem report_issue_effects (s : DBState) (job_id : Nat) (reason : String)
    (j : PickupRequest) (hj : s.jobs job_id = some j) (hpend : j.status = "Pending") :
    (report_issue s job_id reason).jobs job_id =
      some { j with status := "Failed", notes := "Issue: " ++ reason } ∧
    (report_issue s job_id reason).profiles = s.profiles ∧
    (∀ uname, get_user_points (report_issue s job_id reason) uname = get_user_points s uname) := by
  refine ⟨?_, rfl, fun uname => rfl⟩
  simp [report_issue, hj]

/-- C8 witness: the amended effect evaluated on `s0` job 1. -/
theorem report_issue_effects_witness :
    (report_issue s0 1 "Access Blocked").jobs 1 =
      some ⟨1, "Recyclable", "Failed", "2025-01-01", 0, none, "Issue: " ++ "Access Blocked"⟩ ∧
    (report_issue s0 1 "Access Blocked").profiles = s0.profiles ∧
    (∀ uname, get_user_points (report_issue s0 1 "Access Blocked") uname = get_user_points s0 uname) :=
  report_issue_effects s0 1 "Access Blocked"
    ⟨1, "Recyclable", "Pending", "2025-01-01", 0, none, ""⟩ rfl rfl

/-! ### C9 -/

/-- C9: `get_user_points` is total and tolerant — for a username with a
user row and a profile it returns that profile's points; for an unknown
username, or a known user without a profile row, it returns 0 instead of
failing. -/
theorem get_user_points_total (s : DBState) (uname : String) :
    (∀ u p, s.users.find? (fun x => x.username == uname) = some u →
      s.profiles u.id = some p → get_user_points s uname = p.points) ∧
    (s.users.find? (fun x => x.username == uname) = none → get_user_points s uname = 0) ∧
    (∀ u, s.users.find? (fun x => x.username == uname) = some u →
      s.profiles u.id = none → get_user_points s uname = 0) := by
  refine ⟨?_, ?_, ?_⟩
  · intro u p h1 h2
    simp [get_user_points, h1, h2]
  · intro h1
    simp [get_user_points, h1]
  · intro u h1 h2
    simp [get_user_points, h1, h2]

/-- C9 witness: john's balance is read as 50; an unknown name reads 0. -/
theorem get_user_points_total_witness :
    get_user_points s0 "john" = 50 ∧ get_user_points s0 "ghost" = 0 :=
  ⟨(get_user_points_total s0 "john").1 ⟨1, "john"⟩
      ⟨"John Doe", "12 Jalan Teknokrat 3", "Zone A", 50⟩ rfl rfl,
   (get_user_points_total s0 "ghost").2.1 rfl⟩

/-! ### C10 -/

/-- C10: frame property of `complete_job` on an existing job — every other
job row is untouched; the completed job keeps its resident, waste type,
date, notes and driver; every other profile is untouched; the credited
profile keeps its name, address and zone; and users, catalog, logs and the
id counter are unchanged. -/
theorem complete_job_frame (s : DBState) (job_id : Nat) (w : ℚ) (j : PickupRequest)
    (hj : s.jobs job_id = some j) :
    ∃ s', complete_job s job_id w = some s' ∧
      (∀ i, i ≠ job_id → s'.jobs i = s.jobs i) ∧
      (∀ j', s'.jobs job_id = some j' →
        j'.resident_id = j.resident_id ∧ j'.waste_type = j.waste_type ∧
        j'.scheduled_date = j.scheduled_date ∧ j'.notes = j.notes ∧
        j'.driver_id = j.driver_id) ∧
      (∀ uid, uid ≠ j.resident_id → s'.profiles uid = s.profiles uid) ∧
      (∀ p', s'.profiles j.resident_id = some p' →
        ∃ p, s.profiles j.resident_id = some p ∧ p'.full_name = p.full_name ∧
          p'.address = p.address ∧ p'.zone = p.zone) ∧
      s'.users = s.users ∧ s'.catalog = s.catalog ∧ s'.logs = s.logs ∧
      s'.next_job_id = s.next_job_id := by
  unfold complete_job
  rw [hj]
  refine ⟨_, rfl, ?_, ?_, ?_, ?_, rfl, rfl, rfl, rfl⟩
  · intro i hi
    dsimp only
    rw [if_neg hi]
  · intro j' hj'
    dsimp only at hj'
    rw [if_pos rfl, hj] at hj'
    cases hj'
    exact ⟨rfl, rfl, rfl, rfl, rfl⟩
  · intro uid huid
    dsimp only
    rw [if_neg huid]
  · intro p' hp'
    dsimp only at hp'
    rw [if_pos rfl] at hp'
    rcases hsp : s.profiles j.resident_id with _ | p
    · rw [hsp] at hp'
      cases hp'
    · rw [hsp] at hp'
      cases hp'
      exact ⟨p, rfl, rfl, rfl, rfl⟩

/-- C10 witness: the frame property evaluated on `s0` job 1 at 3 kg. -/
theorem complete_job_frame_witness :
    ∃ s', complete_job s0 1 3 = some s' ∧
      (∀ i, i ≠ 1 → s'.jobs i = s0.jobs i) ∧
      (∀ j', s'.jobs 1 = some j' →
        j'.resident_id = 1 ∧ j'.waste_type = "Recyclable" ∧
        j'.scheduled_date = "2025-01-01" ∧ j'.notes = "" ∧ j'.driver_id = none) ∧
      (∀ uid, uid ≠ 1 → s'.profiles uid = s0.profiles uid) ∧
      (∀ p', s'.profiles 1 = some p' →
        ∃ p, s0.profiles 1 = some p ∧ p'.full_name = p.full_name ∧
          p'.address = p.address ∧ p'.zone = p.zone) ∧
      s'.users = s0.users ∧ s'.catalog = s0.catalog ∧ s'.logs = s0.logs ∧
      s'.next_job_id = s0.next_job_id :=
  complete_job_frame s0 1 3 ⟨1, "Recyclable", "Pending", "2025-01-01", 0, none, ""⟩ rfl
